import Mathlib

/-!
Shallow embedding of the query-construction and validation engine of the
`dsl-query-builder` repository (files `src/query-builder.ts` and
`src/validation.ts`).  JavaScript objects are modelled as Lean structures and
inductive types, JS numbers as rationals (so that `Number.isInteger` is
expressible), thrown exceptions as an explicit result type carrying the
builder state at the moment of the throw, and the in-place mutation of the
builder's document as explicit state passing.
-/

/-- A JSON-like JavaScript value (JS numbers are modelled as rationals). -/
inductive Value : Type where
  | null : Value
  | str : String → Value
  | num : ℚ → Value
  | bool : Bool → Value
  | arr : List Value → Value
  | obj : List (String × Value) → Value

/-- A query-clause object: a one-key map naming the clause kind, as pushed by
the composer methods of `query-builder.ts`; `rawC` embeds an arbitrary object
pushed through the `raw` escape hatch. -/
inductive Clause : Type where
  | matchC (field : String) (value : Value) (operator : Option String) : Clause
  | matchPhraseC (field : String) (value : Value) : Clause
  | termC (field : String) (value : Value) : Clause
  | termsC (field : String) (values : List Value) : Clause
  | rangeC (field : String) (range : List (String × Value)) : Clause
  | existsC (field : String) : Clause
  | multiMatchC (fields : List String) (value : Value) (mtype : Option String) : Clause
  | rawC (v : Value) : Clause

/-- The `bool` object of the document: four optional clause arrays plus the
optional `minimum_should_match` number (a key is `none` when absent). -/
structure BoolQuery : Type where
  must : Option (List Clause)
  filter : Option (List Clause)
  should : Option (List Clause)
  must_not : Option (List Clause)
  minimum_should_match : Option ℚ

/-- The names of the four clause arrays of a `BoolQuery`. -/
inductive BoolSection : Type where
  | must | filter | should | must_not
deriving DecidableEq

mutual
/-- The value of the document's `query` key: it may carry a `bool` key, a
`match_all` key, and a `function_score` key (the latter two as produced by
`build`, `matchAll` and `functionScore`); `ensureBoolQuery` adds a `bool`
key next to whatever keys are already there. -/
inductive QObj : Type where
  | mk (boolq : Option BoolQuery) (matchAll : Bool) (fscore : Option FScore) : QObj
/-- The object stored under `function_score` by `functionScore`: it wraps the
previous `query` value and records the functions and the two modes. -/
inductive FScore : Type where
  | mk (innerQuery : Option QObj) (functions : Value)
      (boost_mode : String) (score_mode : String) : FScore
end

def QObj.boolq : QObj → Option BoolQuery
  | .mk b _ _ => b

def QObj.matchAllKey : QObj → Bool
  | .mk _ m _ => m

def QObj.fscore : QObj → Option FScore
  | .mk _ _ f => f

def QObj.withBool : QObj → Option BoolQuery → QObj
  | .mk _ m f, b => .mk b m f

/-- The root query document (`QueryDSL` in `types.ts`), restricted to the keys
the verified operations touch; each key is `none` when absent. -/
structure QueryDSL : Type where
  query : Option QObj
  from' : Option ℚ
  size : Option ℚ
  sort : Option (List (String × String))
  aggs : Option (List (String × Value))

/-- Errors thrown by the composer operations: `validation` embeds the
`ValidationError` class of `validation.ts` (message plus the optional `field`
property); `generic` embeds a plain JavaScript `Error`. -/
inductive JsError : Type where
  | validation (message : String) (field : Option String) : JsError
  | generic (message : String) : JsError

/-- `instanceof ValidationError` (equivalently `err.name === 'ValidationError'`):
whether an error is distinguishable from a generic `Error` by its type. -/
def JsError.isValidation : JsError → Bool
  | .validation _ _ => true
  | .generic _ => false

/-- The outcome of a possibly-throwing builder method: `ok` carries the state
after the call, `err` carries the thrown error together with the builder state
at the moment of the throw (so that partial mutation before a throw would be
observable). -/
inductive OpResult : Type where
  | ok (st : QueryDSL) : OpResult
  | err (e : JsError) (st : QueryDSL) : OpResult

/-! ## Validators (`validation.ts`) -/

/-- JavaScript `String.prototype.trim()`: strip whitespace from both ends
(defined over the character list so that it computes inside the kernel). -/
def jsTrim (s : String) : String :=
  String.mk (((s.data.dropWhile Char.isWhitespace).reverse.dropWhile
    Char.isWhitespace).reverse)

/-- JavaScript `String.prototype.endsWith(post)` (defined over the character
list so that it computes inside the kernel). -/
def strEndsWith (s post : String) : Bool :=
  post.data.isSuffixOf s.data

/-- `validateFieldName` (validation.ts 78-88); the `!field` guard of the
source is the empty-string check for a string-typed argument. -/
def validateFieldName (field : String) (context : String) : Option JsError :=
  if field = "" then
    some (.validation ("Field name is required and must be a string in " ++ context) none)
  else if (jsTrim field).length = 0 then
    some (.validation ("Field name cannot be empty in " ++ context) none)
  else none

/-- `validateQueryValue` (validation.ts 173-185). -/
def validateQueryValue (value : Value) (context : String) : Option JsError :=
  match value with
  | .null => some (.validation ("Query value cannot be null or undefined in " ++ context) none)
  | .str s =>
    if (jsTrim s).length = 0 then
      some (.validation ("Query value cannot be empty string in " ++ context) none)
    else none
  | _ => none

/-- `validatePaginationParams` (validation.ts 96-122); an absent argument is
`none` and `Number.isInteger` is `Rat.isInt`. -/
def validatePaginationParams (fromv : Option ℚ) (sizev : Option ℚ)
    (field : Option String) : Option JsError :=
  if fromv.isSome ∧ (¬ (fromv.getD 0).isInt ∨ fromv.getD 0 < 0) then
    some (.validation "from parameter must be a non-negative integer" field)
  else if sizev.isSome ∧ (¬ (sizev.getD 0).isInt ∨ sizev.getD 0 < 0) then
    some (.validation "size parameter must be a non-negative integer" field)
  else if sizev.isSome ∧ sizev.getD 0 > 10000 then
    some (.validation "size parameter cannot exceed 10000 (Elasticsearch limit)" field)
  else none

/-- `validateSortOrder` (validation.ts 90-94). -/
def validateSortOrder (order : String) : Option JsError :=
  if order ≠ "asc" ∧ order ≠ "desc" then
    some (.validation "Sort order must be \x22asc\x22 or \x22desc\x22" none)
  else none

/-- `validateRangeQuery` (validation.ts 48-76); the range object is its list
of key/value entries, in key order. -/
def validateRangeQuery (range : List (String × Value)) : Option JsError :=
  let validKeys : List String := ["gte", "gt", "lte", "lt", "boost"]
  let providedKeys := range.map Prod.fst
  if providedKeys.length = 0 then
    some (.validation "Range query must have at least one condition" none)
  else
    let invalidKeys := providedKeys.filter (fun k => ¬ validKeys.contains k)
    if invalidKeys.length > 0 then
      some (.validation ("Invalid range query keys: " ++ String.intercalate ", " invalidKeys) none)
    else if ((range.lookup "gte").isSome ∧ (range.lookup "gt").isSome) ∨
        ((range.lookup "lte").isSome ∧ (range.lookup "lt").isSome) then
      some (.validation "Range query cannot have conflicting conditions (gte/gt or lte/lt)" none)
    else none

/-- `validateArray` (validation.ts 124-134) at its default `minLength = 1`,
for a string-array argument. -/
def validateArray (arr : List String) (context : String) : Option JsError :=
  if arr.length < 1 then
    some (.validation (context ++ " must have at least 1 item(s)") none)
  else none

/-- `validateStringArray` (validation.ts 136-146). -/
def validateStringArray (arr : List String) (context : String) : Option JsError :=
  match validateArray arr context with
  | some e => some e
  | none =>
    if ¬ arr.all (fun item => (jsTrim item).length > 0) then
      some (.validation (context ++ " must contain only non-empty strings") none)
    else none

/-- `validateMultiMatchType` (validation.ts 187-204). -/
def validateMultiMatchType (type? : Option String) : Option JsError :=
  let validTypes : List String :=
    ["best_fields", "most_fields", "cross_fields", "phrase", "phrase_prefix", "bool_prefix"]
  match type? with
  | some t =>
    if ¬ validTypes.contains t then
      some (.validation ("Invalid multi_match type \x22" ++ t ++ "\x22. Valid types are: "
        ++ String.intercalate ", " validTypes) none)
    else none
  | none => none

/-- `validateAggregationName` (validation.ts 206-214); the `!name` guard of
the source is the empty-string check for a string-typed argument. -/
def validateAggregationName (name : String) : Option JsError :=
  if name = "" then
    some (.validation "Aggregation name must be a non-empty string" none)
  else if (jsTrim name).length = 0 then
    some (.validation "Aggregation name cannot be empty" none)
  else none

/-! ## Document-model helpers -/

/-- Read one of the four clause arrays of a `BoolQuery`. -/
def BoolQuery.getSection (b : BoolQuery) : BoolSection → Option (List Clause)
  | .must => b.must
  | .filter => b.filter
  | .should => b.should
  | .must_not => b.must_not

/-- `bool[section].push(...cs)` on a `BoolQuery` (an absent array is treated
as empty; every caller runs after `ensureBoolQuery`, which installs it). -/
def BoolQuery.pushAll (b : BoolQuery) (s : BoolSection) (cs : List Clause) : BoolQuery :=
  match s with
  | .must => { b with must := some (b.must.getD [] ++ cs) }
  | .filter => { b with filter := some (b.filter.getD [] ++ cs) }
  | .should => { b with should := some (b.should.getD [] ++ cs) }
  | .must_not => { b with must_not := some (b.must_not.getD [] ++ cs) }

/-- The optional-chaining read `doc.query?.bool?.[section]` flattened to a
list (absent levels read as the empty list). -/
def sectionList (st : QueryDSL) (s : BoolSection) : List Clause :=
  match st.query with
  | some q =>
    match q.boolq with
    | some b => (b.getSection s).getD []
    | none => []
  | none => []

/-- Push clauses onto `doc.query.bool[section]` (no-op when the `bool` object
is absent; every caller runs after `ensureBoolQuery`). -/
def pushMany (st : QueryDSL) (s : BoolSection) (cs : List Clause) : QueryDSL :=
  match st.query with
  | some q =>
    match q.boolq with
    | some b => { st with query := some (q.withBool (some (b.pushAll s cs))) }
    | none => st
  | none => st

/-- Push a single clause onto `doc.query.bool[section]`. -/
def pushClause (st : QueryDSL) (s : BoolSection) (c : Clause) : QueryDSL :=
  pushMany st s [c]

/-- JavaScript truthiness of an optional string argument: `if (x) ...` keeps
the value only when it is present and non-empty. -/
def strTruthy (o : Option String) : Option String :=
  match o with
  | some s => if s = "" then none else some s
  | none => none

/-- `x || d` for an optional string: the default replaces both an absent and
a falsy (empty) value. -/
def strOr (o : Option String) (d : String) : String :=
  match o with
  | some s => if s = "" then d else s
  | none => d

/-- JavaScript falsiness of a value (`!x`). -/
def jsFalsy : Value → Bool
  | .null => true
  | .str s => s = ""
  | .num q => q = 0
  | .bool b => !b
  | .arr _ => false
  | .obj _ => false

/-- `typeof x === 'object'` (true for `null`, arrays and plain objects). -/
def isObjectType : Value → Bool
  | .null => true
  | .arr _ => true
  | .obj _ => true
  | _ => false

/-- `map[name] = spec` on a JS object modelled as an ordered key/value list:
overwrite in place on collision, otherwise append. -/
def setKey (m : List (String × Value)) (k : String) (v : Value) : List (String × Value) :=
  if m.any (fun p => p.1 = k) then
    m.map (fun p => if p.1 = k then (k, v) else p)
  else m ++ [(k, v)]

/-! ## The builder (`query-builder.ts`) -/

namespace QueryBuilder

/-- The document installed by the constructor (query-builder.ts 13-25): an
empty `bool` with its four arrays present and empty. -/
def initialState : QueryDSL :=
  { query := some (QObj.mk (some ⟨some [], some [], some [], some [], none⟩) false none)
    from' := none, size := none, sort := none, aggs := none }

/-- `ensureBoolQuery` (query-builder.ts 915-931): create `query` if absent,
create the `bool` key if absent, and fill in any missing section array. -/
def ensureBoolQuery (st : QueryDSL) : QueryDSL :=
  let q :=
    match st.query with
    | none => QObj.mk none false none
    | some q => q
  let q :=
    match q.boolq with
    | none => q.withBool (some ⟨some [], some [], some [], some [], none⟩)
    | some b =>
      q.withBool (some ⟨some (b.must.getD []), some (b.filter.getD []),
        some (b.should.getD []), some (b.must_not.getD []), b.minimum_should_match⟩)
  { st with query := some q }

/-- `from` (query-builder.ts 30-34). -/
def from' (st : QueryDSL) (value : ℚ) : OpResult :=
  match validatePaginationParams (some value) none none with
  | some e => .err e st
  | none => .ok { st with from' := some value }

/-- `size` (query-builder.ts 39-43). -/
def size (st : QueryDSL) (value : ℚ) : OpResult :=
  match validatePaginationParams none (some value) (some "size") with
  | some e => .err e st
  | none => .ok { st with size := some value }

/-- `match` (query-builder.ts 48-58); the `operator` key is set only when the
argument is truthy. -/
def matchQ (st : QueryDSL) (field : String) (value : Value)
    (operator : Option String) : OpResult :=
  match validateFieldName field "match query" with
  | some e => .err e st
  | none =>
    match validateQueryValue value "match query" with
    | some e => .err e st
    | none =>
      .ok (pushClause (ensureBoolQuery st) .must (Clause.matchC field value (strTruthy operator)))

/-- `term` (query-builder.ts 77-89): appends `.keyword` to the field name
unless it is already the suffix, then pushes a term clause to `filter`. -/
def term (st : QueryDSL) (field : String) (value : Value) : OpResult :=
  match validateFieldName field "term query" with
  | some e => .err e st
  | none =>
    match validateQueryValue value "term query" with
    | some e => .err e st
    | none =>
      let fieldName := if strEndsWith field ".keyword" then field else field ++ ".keyword"
      .ok (pushClause (ensureBoolQuery st) .filter (Clause.termC fieldName value))

/-- `terms` (query-builder.ts 94-104): pushes a terms clause under the
unmodified field name; an empty values array raises a plain `Error`. -/
def terms (st : QueryDSL) (field : String) (values : List Value) : OpResult :=
  match validateFieldName field "terms query" with
  | some e => .err e st
  | none =>
    if values.length = 0 then
      .err (.generic "terms query values must be a non-empty array") st
    else
      .ok (pushClause (ensureBoolQuery st) .filter (Clause.termsC field values))

/-- `range` (query-builder.ts 109-117). -/
def range (st : QueryDSL) (field : String) (r : List (String × Value)) : OpResult :=
  match validateFieldName field "range query" with
  | some e => .err e st
  | none =>
    match validateRangeQuery r with
    | some e => .err e st
    | none => .ok (pushClause (ensureBoolQuery st) .filter (Clause.rangeC field r))

/-- `multiMatch` (query-builder.ts 207-225); the `type` key is set only when
the argument is truthy. -/
def multiMatch (st : QueryDSL) (fields : List String) (value : Value)
    (type? : Option String) : OpResult :=
  match validateStringArray fields "multi_match fields" with
  | some e => .err e st
  | none =>
    match validateQueryValue value "multi_match query" with
    | some e => .err e st
    | none =>
      match validateMultiMatchType type? with
      | some e => .err e st
      | none =>
        .ok (pushClause (ensureBoolQuery st) .must
          (Clause.multiMatchC fields value (strTruthy type?)))

/-- `sort` (query-builder.ts 230-238). -/
def sort (st : QueryDSL) (field : String) (order : String) : OpResult :=
  match validateFieldName field "sort" with
  | some e => .err e st
  | none =>
    match validateSortOrder order with
    | some e => .err e st
    | none => .ok { st with sort := some (st.sort.getD [] ++ [(field, order)]) }

/-- `minimumShouldMatch` (query-builder.ts 179-183); never throws. -/
def minimumShouldMatch (st : QueryDSL) (value : ℚ) : QueryDSL :=
  let st := ensureBoolQuery st
  match st.query with
  | some q =>
    match q.boolq with
    | some b => { st with query := some (q.withBool (some { b with minimum_should_match := some value })) }
    | none => st
  | none => st

/-- `raw` (query-builder.ts 352-359): pushes an arbitrary clause object into
the named section without validation; never throws. -/
def raw (st : QueryDSL) (query : Clause) (clause : BoolSection) : QueryDSL :=
  pushClause (ensureBoolQuery st) clause query

/-- `aggregate` (query-builder.ts 270-280); a falsy or non-object spec raises
a plain `Error`. -/
def aggregate (st : QueryDSL) (name : String) (aggregation : Value) : OpResult :=
  match validateAggregationName name with
  | some e => .err e st
  | none =>
    if jsFalsy aggregation ∨ ¬ isObjectType aggregation then
      .err (.generic "Aggregation must be an object") st
    else
      .ok { st with aggs := some (setKey (st.aggs.getD []) name aggregation) }

/-- `termsAgg` (query-builder.ts 285-293); a non-integer or non-positive size
raises a plain `Error`, then the name is validated inside `aggregate`. -/
def termsAgg (st : QueryDSL) (name : String) (field : String) (sizeArg : ℚ) : OpResult :=
  match validateFieldName field "terms aggregation" with
  | some e => .err e st
  | none =>
    if ¬ sizeArg.isInt ∨ sizeArg ≤ 0 then
      .err (.generic "Terms aggregation size must be a positive integer") st
    else
      aggregate st name (Value.obj [("terms",
        Value.obj [("field", Value.str field), ("size", Value.num sizeArg)])])

/-- `functionScore` (query-builder.ts 674-690): replaces the `query` value
with a one-key `function_score` wrapper around the previous value; never
throws. -/
def functionScore (st : QueryDSL) (functions : Value)
    (boost_mode score_mode : Option String) : QueryDSL :=
  let currentQuery := st.query
  { st with query := some (QObj.mk none false (some (FScore.mk currentQuery functions
      (strOr boost_mode "multiply") (strOr score_mode "multiply")))) }

/-- `if (bool.X?.length === 0) delete bool.X` for a single section array. -/
def pruneEmpty : Option (List Clause) → Option (List Clause)
  | some [] => none
  | x => x

/-- The four `delete` statements of `build` (query-builder.ts 403-406). -/
def cleanBool (b : BoolQuery) : BoolQuery :=
  ⟨pruneEmpty b.must, pruneEmpty b.filter, pruneEmpty b.should,
    pruneEmpty b.must_not, b.minimum_should_match⟩

/-- `Object.keys(bool).length === 0` after the pruning pass (query-builder.ts
409): every key of the `bool` object, `minimum_should_match` included, is
absent. -/
def boolKeysEmpty (b : BoolQuery) : Bool :=
  b.must.isNone && b.filter.isNone && b.should.isNone &&
    b.must_not.isNone && b.minimum_should_match.isNone

/-- The `if (cleanedQuery.query?.bool)` branch of `build` (query-builder.ts
401-412): prune the four arrays and degenerate an empty `bool` into
`{match_all: {}}`. -/
def cleanQuery (st : QueryDSL) : QueryDSL :=
  match st.query with
  | some q =>
    match q.boolq with
    | some b =>
      let b := cleanBool b
      if boolKeysEmpty b then
        { st with query := some (QObj.mk none true none) }
      else
        { st with query := some (q.withBool (some b)) }
    | none => st
  | none => st

/-- `if (cleanedQuery.sort?.length === 0) delete cleanedQuery.sort`
(query-builder.ts 414-416). -/
def cleanSort (st : QueryDSL) : QueryDSL :=
  match st.sort with
  | some [] => { st with sort := none }
  | _ => st

/-- `build` (query-builder.ts 397-419): on a deep copy of the document
(value semantics), drop each of the four `bool` arrays that is present and
empty; if the `bool` object then has no keys left, replace the whole `query`
value by `{match_all: {}}`; finally drop a present-but-empty `sort`. -/
def build (st : QueryDSL) : QueryDSL :=
  cleanSort (cleanQuery st)

/-- `build` together with the builder state after the call: the source makes
a deep copy first (`JSON.parse(JSON.stringify(this.query))`, value semantics)
and performs every deletion on the copy, so the live document is the state it
started from. -/
def buildM (st : QueryDSL) : QueryDSL × QueryDSL :=
  let live := st
  (live, build st)

/-- `should` (query-builder.ts 160-174): run the callback on a fresh
sub-builder, finalize it, and append the finalized `must` then `filter`
arrays (each absent array contributing nothing) into the parent's `should`. -/
def should (st : QueryDSL) (callback : QueryDSL → QueryDSL) : QueryDSL :=
  let st := ensureBoolQuery st
  let subBuilder := callback initialState
  let subQuery := build subBuilder
  let st := pushMany st .should (sectionList subQuery .must)
  pushMany st .should (sectionList subQuery .filter)

/-- `mustNot` (query-builder.ts 188-202): as `should`, but the finalized
`must` then `filter` arrays land in the parent's `must_not`. -/
def mustNot (st : QueryDSL) (callback : QueryDSL → QueryDSL) : QueryDSL :=
  let st := ensureBoolQuery st
  let subBuilder := callback initialState
  let subQuery := build subBuilder
  let st := pushMany st .must_not (sectionList subQuery .must)
  pushMany st .must_not (sectionList subQuery .filter)

end QueryBuilder

/-! ## Helper lemmas about the document model -/

/-- The state produced by `ensureBoolQuery` has a `bool` object. -/
theorem ensureBoolQuery_hasBool (st : QueryDSL) :
    ∃ q b, (QueryBuilder.ensureBoolQuery st).query = some q ∧ q.boolq = some b := by
  cases st with
  | mk qo fr sz so ag =>
    cases qo with
    | none => exact ⟨_, _, rfl, rfl⟩
    | some q =>
      cases q with
      | mk b m fs =>
        cases b with
        | none => exact ⟨_, _, rfl, rfl⟩
        | some bb => exact ⟨_, _, rfl, rfl⟩

/-- `ensureBoolQuery` does not change the content of any clause section. -/
theorem sectionList_ensureBoolQuery (st : QueryDSL) (s : BoolSection) :
    sectionList (QueryBuilder.ensureBoolQuery st) s = sectionList st s := by
  cases st with
  | mk qo fr sz so ag =>
    cases qo with
    | none => cases s <;> rfl
    | some q =>
      cases q with
      | mk b m fs =>
        cases b with
        | none => cases s <;> rfl
        | some bb =>
          cases s <;>
            simp [QueryBuilder.ensureBoolQuery, sectionList, QObj.boolq, QObj.withBool,
              BoolQuery.getSection]

/-- Reading the section just pushed to, through a `bool` object. -/
theorem sectionList_pushMany_self (st : QueryDSL) (s : BoolSection) (cs : List Clause)
    (q : QObj) (b : BoolQuery) (hq : st.query = some q) (hb : q.boolq = some b) :
    sectionList (pushMany st s cs) s = sectionList st s ++ cs := by
  cases q with
  | mk b0 m fs =>
    cases hb
    cases s <;>
      simp [pushMany, sectionList, hq, QObj.boolq, QObj.withBool, BoolQuery.pushAll,
        BoolQuery.getSection, Option.getD]

/-- Pushing to one section leaves every other section unchanged. -/
theorem sectionList_pushMany_ne (st : QueryDSL) (s s' : BoolSection) (cs : List Clause)
    (h : s ≠ s') :
    sectionList (pushMany st s cs) s' = sectionList st s' := by
  cases st with
  | mk qo fr sz so ag =>
    cases qo with
    | none => rfl
    | some q =>
      cases q with
      | mk b m fs =>
        cases b with
        | none => rfl
        | some bb =>
          cases s <;> cases s' <;> first
            | exact absurd rfl h
            | simp [pushMany, sectionList, QObj.boolq, QObj.withBool, BoolQuery.pushAll,
                BoolQuery.getSection]

/-- Pruning a section keeps its content as a flattened list. -/
theorem pruneEmpty_getD (o : Option (List Clause)) :
    (QueryBuilder.pruneEmpty o).getD [] = o.getD [] := by
  rcases o with _ | ⟨_ | _⟩ <;> rfl

/-- A pruned-away section was empty as a flattened list. -/
theorem getD_of_pruneEmpty_eq_none (o : Option (List Clause))
    (h : QueryBuilder.pruneEmpty o = none) : o.getD [] = [] := by
  rcases o with _ | ⟨_ | _⟩ <;> simp_all [QueryBuilder.pruneEmpty]

/-- `cleanBool` acts as `pruneEmpty` on every section. -/
theorem getSection_cleanBool (b : BoolQuery) (s : BoolSection) :
    (QueryBuilder.cleanBool b).getSection s = QueryBuilder.pruneEmpty (b.getSection s) := by
  cases s <;> rfl

/-- `cleanSort` does not touch the `query` key. -/
theorem query_cleanSort (st : QueryDSL) :
    (QueryBuilder.cleanSort st).query = st.query := by
  unfold QueryBuilder.cleanSort
  rcases st with ⟨qo, fr, sz, _ | ⟨_ | _⟩, ag⟩ <;> rfl

/-- `sectionList` only reads the `query` key. -/
theorem sectionList_congr_query (st st' : QueryDSL) (h : st.query = st'.query)
    (s : BoolSection) : sectionList st s = sectionList st' s := by
  unfold sectionList
  rw [h]

/-- `cleanQuery` does not change the content of any clause section: pruning
only turns a present-and-empty array into an absent one, and the degeneration
to `match_all` only happens when all four sections are empty. -/
theorem sectionList_cleanQuery (st : QueryDSL) (s : BoolSection) :
    sectionList (QueryBuilder.cleanQuery st) s = sectionList st s := by
  rcases st with ⟨qo, fr, sz, so, ag⟩
  cases qo with
  | none => rfl
  | some q =>
    cases q with
    | mk b m fs =>
      cases b with
      | none => rfl
      | some bb =>
        unfold QueryBuilder.cleanQuery
        simp only [QObj.boolq]
        by_cases hke : QueryBuilder.boolKeysEmpty (QueryBuilder.cleanBool bb) = true
        · have hs : ((QueryBuilder.cleanBool bb).getSection s).isNone = true := by
            have h' := hke
            unfold QueryBuilder.boolKeysEmpty at h'
            simp only [Bool.and_eq_true] at h'
            cases s <;> simp only [BoolQuery.getSection] <;> tauto
          rw [getSection_cleanBool] at hs
          have h0 : (bb.getSection s).getD [] = [] :=
            getD_of_pruneEmpty_eq_none _ (Option.isNone_iff_eq_none.mp hs)
          rw [if_pos hke]
          simp [sectionList, QObj.boolq, h0]
        · rw [if_neg hke]
          simp [sectionList, QObj.boolq, QObj.withBool, getSection_cleanBool,
            pruneEmpty_getD]

/-- `build` does not change the content of any clause section. -/
theorem sectionList_build (st : QueryDSL) (s : BoolSection) :
    sectionList (QueryBuilder.build st) s = sectionList st s := by
  unfold QueryBuilder.build
  rw [sectionList_congr_query _ _ (query_cleanSort _) s, sectionList_cleanQuery]

/-- `minimumShouldMatch` does not change the content of any clause section. -/
theorem sectionList_minimumShouldMatch (st : QueryDSL) (n : ℚ) (s : BoolSection) :
    sectionList (QueryBuilder.minimumShouldMatch st n) s = sectionList st s := by
  obtain ⟨q, b, hq, hb⟩ := ensureBoolQuery_hasBool st
  rw [← sectionList_ensureBoolQuery st s]
  cases q with
  | mk b0 m fs =>
    cases hb
    unfold QueryBuilder.minimumShouldMatch
    cases s <;>
      simp [hq, sectionList, QObj.boolq, QObj.withBool, BoolQuery.getSection]

/-- `raw` into one section leaves every other section unchanged. -/
theorem sectionList_raw_ne (st : QueryDSL) (c : Clause) (s s' : BoolSection)
    (h : s ≠ s') :
    sectionList (QueryBuilder.raw st c s) s' = sectionList st s' := by
  unfold QueryBuilder.raw pushClause
  rw [sectionList_pushMany_ne _ _ _ _ h, sectionList_ensureBoolQuery]

/-- `pushMany` keeps the `bool` object in place. -/
theorem pushMany_hasBool (st : QueryDSL) (s : BoolSection) (cs : List Clause)
    (q : QObj) (b : BoolQuery) (hq : st.query = some q) (hb : q.boolq = some b) :
    ∃ q' b', (pushMany st s cs).query = some q' ∧ q'.boolq = some b' := by
  cases q with
  | mk b0 m fs =>
    cases hb
    refine ⟨QObj.mk (some (b.pushAll s cs)) m fs, b.pushAll s cs, ?_, rfl⟩
    unfold pushMany
    rw [hq]
    rfl

/-- Pushing one clause after `ensureBoolQuery` appends it to the section. -/
theorem sectionList_pushClause_ensure (st : QueryDSL) (s : BoolSection) (c : Clause) :
    sectionList (pushClause (QueryBuilder.ensureBoolQuery st) s c) s =
      sectionList st s ++ [c] := by
  obtain ⟨q, b, hq, hb⟩ := ensureBoolQuery_hasBool st
  unfold pushClause
  rw [sectionList_pushMany_self _ _ _ q b hq hb, sectionList_ensureBoolQuery]

/-- What `should` does, with the finalization of the sub-builder already
reduced away: push the sub-builder's raw `must` then `filter` contents onto
the parent's `should`. -/
theorem should_eq_pushMany (st : QueryDSL) (cb : QueryDSL → QueryDSL) :
    QueryBuilder.should st cb =
      pushMany (pushMany (QueryBuilder.ensureBoolQuery st) .should
          (sectionList (cb QueryBuilder.initialState) .must)) .should
        (sectionList (cb QueryBuilder.initialState) .filter) := by
  unfold QueryBuilder.should
  dsimp only
  rw [sectionList_build, sectionList_build]

/-- What `mustNot` does, with the finalization of the sub-builder already
reduced away: push the sub-builder's raw `must` then `filter` contents onto
the parent's `must_not`. -/
theorem mustNot_eq_pushMany (st : QueryDSL) (cb : QueryDSL → QueryDSL) :
    QueryBuilder.mustNot st cb =
      pushMany (pushMany (QueryBuilder.ensureBoolQuery st) .must_not
          (sectionList (cb QueryBuilder.initialState) .must)) .must_not
        (sectionList (cb QueryBuilder.initialState) .filter) := by
  unfold QueryBuilder.mustNot
  dsimp only
  rw [sectionList_build, sectionList_build]

/-! ## The claims -/

/-- C1: on a freshly constructed builder with no mutating call, `build()`
returns exactly `{query: {match_all: {}}}` — no `from`, `size` or `sort`
keys; the four empty `bool` sections are pruned and the then-empty `bool`
object is replaced by the match-all marker. -/
theorem build_of_initialState_is_match_all :
    QueryBuilder.build QueryBuilder.initialState =
      { query := some (QObj.mk none true none),
        from' := none, size := none, sort := none, aggs := none } := rfl

/-- C4: a builder on which only `minimumShouldMatch(n)` was called builds to
a document whose `query.bool` is exactly `{minimum_should_match: n}`: the
four empty arrays are pruned but, because the `minimum_should_match` key
remains, the `bool` object is not replaced by the match-all marker. -/
theorem build_of_minimumShouldMatch_only (n : ℤ) :
    QueryBuilder.build (QueryBuilder.minimumShouldMatch QueryBuilder.initialState (n : ℚ)) =
      { query := some (QObj.mk (some ⟨none, none, none, none, some (n : ℚ)⟩) false none),
        from' := none, size := none, sort := none, aggs := none } := rfl

/-- C9: `build()` is a read operation — the builder's live document after the
call is exactly the state before it, the result is a function of the state's
value alone (the source deep-copies before pruning, which is value semantics
here), and a repeated call gives the identical result. -/
theorem buildM_preserves_state (st : QueryDSL) :
    (QueryBuilder.buildM st).1 = st ∧
    (QueryBuilder.buildM st).2 = QueryBuilder.build st ∧
    QueryBuilder.buildM ((QueryBuilder.buildM st).1) = QueryBuilder.buildM st :=
  ⟨rfl, rfl, rfl⟩

/-- C2: for a valid field `f` and value `v`, `term(f, v)` appends its clause
under the key `f ++ ".keyword"` when `f` does not already end in `.keyword`
and under `f` unchanged when it does, while `terms(f, vs)` appends its clause
under the unmodified key `f`. -/
theorem term_appends_keyword_suffix (st : QueryDSL) (f : String) (v : Value)
    (vs : List Value)
    (hf : validateFieldName f "term query" = none)
    (hv : validateQueryValue v "term query" = none)
    (hf' : validateFieldName f "terms query" = none)
    (hvs : vs ≠ []) :
    (strEndsWith f ".keyword" = false →
      ∃ st', QueryBuilder.term st f v = .ok st' ∧
        sectionList st' .filter =
          sectionList st .filter ++ [Clause.termC (f ++ ".keyword") v]) ∧
    (strEndsWith f ".keyword" = true →
      ∃ st', QueryBuilder.term st f v = .ok st' ∧
        sectionList st' .filter = sectionList st .filter ++ [Clause.termC f v]) ∧
    (∃ st', QueryBuilder.terms st f vs = .ok st' ∧
      sectionList st' .filter = sectionList st .filter ++ [Clause.termsC f vs]) := by
  refine ⟨?_, ?_, ?_⟩
  · intro h
    refine ⟨_, ?_, sectionList_pushClause_ensure st .filter _⟩
    unfold QueryBuilder.term
    rw [hf, hv, h]
    rfl
  · intro h
    refine ⟨_, ?_, sectionList_pushClause_ensure st .filter _⟩
    unfold QueryBuilder.term
    rw [hf, hv, h]
    rfl
  · refine ⟨_, ?_, sectionList_pushClause_ensure st .filter _⟩
    unfold QueryBuilder.terms
    rw [hf']
    rw [if_neg (by simpa [List.length_eq_zero] using hvs)]

/-- Witness for C2 at `f = "brand"`, `v = "sony"`. -/
theorem term_appends_keyword_suffix_witness :
    validateFieldName "brand" "term query" = none ∧
    (∃ st', QueryBuilder.term QueryBuilder.initialState "brand" (Value.str "sony") = .ok st' ∧
      sectionList st' .filter =
        sectionList QueryBuilder.initialState .filter ++
          [Clause.termC "brand.keyword" (Value.str "sony")]) :=
  ⟨rfl,
    (term_appends_keyword_suffix QueryBuilder.initialState "brand" (Value.str "sony")
      [Value.str "sony"] rfl rfl rfl (List.cons_ne_nil _ _)).1 rfl⟩

/-- C3: `should(cb)` appends the clause objects of the sub-builder's `must`
section followed by those of its `filter` section, flattened, directly into
the parent's `should` array (no nested `bool` wrapper); `mustNot(cb)` does
the same into the parent's `must_not` array. -/
theorem should_mustNot_merge_flat (st : QueryDSL) (cb : QueryDSL → QueryDSL)
    (q : QObj) (b : BoolQuery)
    (hq : (cb QueryBuilder.initialState).query = some q)
    (hb : q.boolq = some b) :
    sectionList (QueryBuilder.should st cb) .should =
      sectionList st .should ++ (b.must.getD [] ++ b.filter.getD []) ∧
    sectionList (QueryBuilder.mustNot st cb) .must_not =
      sectionList st .must_not ++ (b.must.getD [] ++ b.filter.getD []) := by
  have hmust : sectionList (cb QueryBuilder.initialState) .must = b.must.getD [] := by
    cases q with
    | mk b0 m fs =>
      cases hb
      simp [sectionList, hq, QObj.boolq, BoolQuery.getSection]
  have hfilter : sectionList (cb QueryBuilder.initialState) .filter = b.filter.getD [] := by
    cases q with
    | mk b0 m fs =>
      cases hb
      simp [sectionList, hq, QObj.boolq, BoolQuery.getSection]
  obtain ⟨q1, b1, hq1, hb1⟩ := ensureBoolQuery_hasBool st
  constructor
  · rw [should_eq_pushMany]
    obtain ⟨q2, b2, hq2, hb2⟩ := pushMany_hasBool _ .should _ q1 b1 hq1 hb1
    rw [sectionList_pushMany_self _ _ _ q2 b2 hq2 hb2,
      sectionList_pushMany_self _ _ _ q1 b1 hq1 hb1,
      sectionList_ensureBoolQuery, hmust, hfilter, List.append_assoc]
  · rw [mustNot_eq_pushMany]
    obtain ⟨q2, b2, hq2, hb2⟩ := pushMany_hasBool _ .must_not _ q1 b1 hq1 hb1
    rw [sectionList_pushMany_self _ _ _ q2 b2 hq2 hb2,
      sectionList_pushMany_self _ _ _ q1 b1 hq1 hb1,
      sectionList_ensureBoolQuery, hmust, hfilter, List.append_assoc]

/-- Witness for C3: a callback contributing one `must` and one `filter`
clause yields a parent `should` holding exactly those two, flattened. -/
theorem should_mustNot_merge_flat_witness :
    sectionList (QueryBuilder.should QueryBuilder.initialState
        (fun bld => QueryBuilder.raw
          (QueryBuilder.raw bld (Clause.rawC (Value.str "m")) .must)
          (Clause.rawC (Value.str "f")) .filter)) .should =
      [Clause.rawC (Value.str "m"), Clause.rawC (Value.str "f")] := by
  have h := (should_mustNot_merge_flat QueryBuilder.initialState
    (fun bld => QueryBuilder.raw
      (QueryBuilder.raw bld (Clause.rawC (Value.str "m")) .must)
      (Clause.rawC (Value.str "f")) .filter)
    (QObj.mk (some ⟨some [Clause.rawC (Value.str "m")], some [Clause.rawC (Value.str "f")],
      some [], some [], none⟩) false none)
    ⟨some [Clause.rawC (Value.str "m")], some [Clause.rawC (Value.str "f")],
      some [], some [], none⟩ rfl rfl).1
  simpa using h

/-- C10: clauses a callback places in the sub-builder's own `should` or
`must_not` sections (here via `raw`), and the sub-builder's
`minimum_should_match`, are silently discarded by `should(cb)` and
`mustNot(cb)`: decorating the callback with such contributions changes
nothing in the parent. -/
theorem should_mustNot_discard_other_sections (st : QueryDSL)
    (cb : QueryDSL → QueryDSL) (c₁ c₂ : Clause) (n : ℚ) :
    QueryBuilder.should st (fun bld =>
        QueryBuilder.minimumShouldMatch
          (QueryBuilder.raw (QueryBuilder.raw (cb bld) c₁ .should) c₂ .must_not) n) =
      QueryBuilder.should st cb ∧
    QueryBuilder.mustNot st (fun bld =>
        QueryBuilder.minimumShouldMatch
          (QueryBuilder.raw (QueryBuilder.raw (cb bld) c₁ .should) c₂ .must_not) n) =
      QueryBuilder.mustNot st cb := by
  have hmust : sectionList
      (QueryBuilder.minimumShouldMatch
        (QueryBuilder.raw (QueryBuilder.raw (cb QueryBuilder.initialState) c₁ .should)
          c₂ .must_not) n) .must =
      sectionList (cb QueryBuilder.initialState) .must := by
    rw [sectionList_minimumShouldMatch, sectionList_raw_ne _ _ _ _ (by decide),
      sectionList_raw_ne _ _ _ _ (by decide)]
  have hfilter : sectionList
      (QueryBuilder.minimumShouldMatch
        (QueryBuilder.raw (QueryBuilder.raw (cb QueryBuilder.initialState) c₁ .should)
          c₂ .must_not) n) .filter =
      sectionList (cb QueryBuilder.initialState) .filter := by
    rw [sectionList_minimumShouldMatch, sectionList_raw_ne _ _ _ _ (by decide),
      sectionList_raw_ne _ _ _ _ (by decide)]
  constructor
  · rw [should_eq_pushMany, should_eq_pushMany, hmust, hfilter]
  · rw [mustNot_eq_pushMany, mustNot_eq_pushMany, hmust, hfilter]

/-- `cleanQuery` does not touch the `size` key. -/
theorem size_cleanQuery (st : QueryDSL) : (QueryBuilder.cleanQuery st).size = st.size := by
  unfold QueryBuilder.cleanQuery
  dsimp only
  repeat' split
  all_goals rfl

/-- `cleanSort` does not touch the `size` key. -/
theorem size_cleanSort (st : QueryDSL) : (QueryBuilder.cleanSort st).size = st.size := by
  unfold QueryBuilder.cleanSort
  repeat' split
  all_goals rfl

/-- `build` does not touch the `size` key. -/
theorem size_build (st : QueryDSL) : (QueryBuilder.build st).size = st.size := by
  unfold QueryBuilder.build
  rw [size_cleanSort, size_cleanQuery]

/-- Evaluation of `validatePaginationParams` in the way `size` calls it. -/
theorem validatePaginationParams_size (q : ℚ) (f : Option String) :
    validatePaginationParams none (some q) f =
      if ¬ q.isInt = true ∨ q < 0 then
        some (.validation "size parameter must be a non-negative integer" f)
      else if q > 10000 then
        some (.validation "size parameter cannot exceed 10000 (Elasticsearch limit)" f)
      else none := by
  unfold validatePaginationParams
  simp

/-- Evaluation of `validatePaginationParams` in the way `from` calls it. -/
theorem validatePaginationParams_from (q : ℚ) :
    validatePaginationParams (some q) none none =
      if ¬ q.isInt = true ∨ q < 0 then
        some (.validation "from parameter must be a non-negative integer" none)
      else none := by
  unfold validatePaginationParams
  simp

/-- C7: `size(n)` throws exactly when `n` is not an integer, is negative, or
exceeds 10000, and succeeds for every integer `0 ≤ n ≤ 10000`; `from(n)`
throws for every negative or non-integer `n`; and `size(0)` followed by
`build()` yields a document whose `size` equals `0` (zero is preserved). -/
theorem size_from_bounds (st : QueryDSL) (q : ℚ) :
    (¬ (q.isInt = true ∧ 0 ≤ q ∧ q ≤ 10000) →
      ∃ e, QueryBuilder.size st q = .err e st) ∧
    (q.isInt = true → 0 ≤ q → q ≤ 10000 →
      QueryBuilder.size st q = .ok { st with size := some q }) ∧
    (¬ (q.isInt = true ∧ 0 ≤ q) → ∃ e, QueryBuilder.from' st q = .err e st) ∧
    (∃ st', QueryBuilder.size st 0 = .ok st' ∧
      (QueryBuilder.build st').size = some 0) := by
  have hsize : ∀ r : ℚ, QueryBuilder.size st r =
      (if ¬ r.isInt = true ∨ r < 0 then
        .err (.validation "size parameter must be a non-negative integer" (some "size")) st
      else if r > 10000 then
        .err (.validation "size parameter cannot exceed 10000 (Elasticsearch limit)"
          (some "size")) st
      else .ok { st with size := some r }) := by
    intro r
    unfold QueryBuilder.size
    rw [validatePaginationParams_size]
    by_cases h1 : ¬ r.isInt = true ∨ r < 0
    · rw [if_pos h1, if_pos h1]
    · rw [if_neg h1, if_neg h1]
      by_cases h2 : r > 10000
      · rw [if_pos h2, if_pos h2]
      · rw [if_neg h2, if_neg h2]
  refine ⟨?_, ?_, ?_, ?_⟩
  · intro h
    rw [hsize q]
    by_cases h1 : ¬ q.isInt = true ∨ q < 0
    · rw [if_pos h1]; exact ⟨_, rfl⟩
    · rw [if_neg h1]
      push_neg at h1
      have h2 : q > 10000 := by
        by_contra hle
        exact h ⟨h1.1, h1.2, not_lt.mp hle⟩
      rw [if_pos h2]; exact ⟨_, rfl⟩
  · intro hi h0 hle
    rw [hsize q, if_neg (by simp [hi, not_lt.mpr h0]), if_neg (not_lt.mpr hle)]
  · intro h
    unfold QueryBuilder.from'
    rw [validatePaginationParams_from, if_pos ?_]
    · exact ⟨_, rfl⟩
    · by_contra h1
      push_neg at h1
      exact h ⟨h1.1, h1.2⟩
  · refine ⟨{ st with size := some 0 }, ?_, ?_⟩
    · rw [hsize 0, if_neg (by norm_num [Rat.isInt]), if_neg (by norm_num)]
    · rw [size_build]

/-- Witness for C7: `size(10000)` succeeds, `size(10001)` and `from(-1)`
throw, and `size(0)` builds to a document with `size = 0`. -/
theorem size_from_bounds_witness :
    (QueryBuilder.size QueryBuilder.initialState 10000 =
      .ok { QueryBuilder.initialState with size := some 10000 }) ∧
    (∃ e, QueryBuilder.size QueryBuilder.initialState 10001 =
      .err e QueryBuilder.initialState) ∧
    (∃ e, QueryBuilder.from' QueryBuilder.initialState (-1) =
      .err e QueryBuilder.initialState) ∧
    (∃ st', QueryBuilder.size QueryBuilder.initialState 0 = .ok st' ∧
      (QueryBuilder.build st').size = some 0) :=
  ⟨(size_from_bounds QueryBuilder.initialState 10000).2.1 (by norm_num [Rat.isInt])
      (by norm_num) (by norm_num),
    (size_from_bounds QueryBuilder.initialState 10001).1
      (by intro h; exact absurd h.2.2 (by norm_num)),
    (size_from_bounds QueryBuilder.initialState (-1)).2.2.1
      (by intro h; exact absurd h.2 (by norm_num)),
    (size_from_bounds QueryBuilder.initialState 0).2.2.2⟩

/-- C8: after `functionScore` replaces the `query` value with a one-key
`function_score` wrapper, a subsequent `match(f, v)` creates a new empty
`bool` object as a sibling key of `function_score` in the same query object
and appends the clause there — it neither merges into the wrapped inner
query (which stays untouched inside the wrapper) nor raises an error. -/
theorem matchQ_after_functionScore_sibling_bool (st : QueryDSL) (f : String)
    (v : Value) (op : Option String) (fns : Value) (bm sm : Option String)
    (hf : validateFieldName f "match query" = none)
    (hv : validateQueryValue v "match query" = none) :
    QueryBuilder.matchQ (QueryBuilder.functionScore st fns bm sm) f v op =
      .ok { st with query := some (QObj.mk
        (some ⟨some [Clause.matchC f v (strTruthy op)], some [], some [], some [], none⟩)
        false
        (some (FScore.mk st.query fns (strOr bm "multiply") (strOr sm "multiply")))) } := by
  unfold QueryBuilder.matchQ
  rw [hf, hv]
  rfl

/-- Witness for C8 at `f = "name"`, `v = "x"` on a fresh builder. -/
theorem matchQ_after_functionScore_sibling_bool_witness :
    validateFieldName "name" "match query" = none ∧
    QueryBuilder.matchQ
        (QueryBuilder.functionScore QueryBuilder.initialState (Value.arr []) none none)
        "name" (Value.str "x") none =
      .ok { QueryBuilder.initialState with query := some (QObj.mk
        (some ⟨some [Clause.matchC "name" (Value.str "x") none], some [], some [], some [], none⟩)
        false
        (some (FScore.mk QueryBuilder.initialState.query (Value.arr []) "multiply" "multiply"))) } :=
  ⟨rfl, matchQ_after_functionScore_sibling_bool QueryBuilder.initialState "name"
    (Value.str "x") none (Value.arr []) none none rfl rfl⟩

/-- Counterexample to C5: the empty-values violation of `terms` raises a
plain generic `Error` (message only), not a `ValidationError` — so not every
validation violation raises an error of the distinguishable type carrying a
field, code and context. -/
theorem terms_empty_error_is_generic :
    QueryBuilder.terms QueryBuilder.initialState "brand" [] =
      .err (JsError.generic "terms query values must be a non-empty array")
        QueryBuilder.initialState ∧
    (JsError.generic "terms query values must be a non-empty array").isValidation = false :=
  ⟨rfl, rfl⟩

/-- C5 (amended): violations detected by the shared validator functions raise
a `ValidationError` — distinguishable from generic errors by its type — whose
human-readable message names the raising operation, and which carries a
`field` property only for the pagination checks (naming the parameter); no
machine-readable code property exists.  The `terms` empty-array check and the
`termsAgg` size check instead throw plain generic errors. -/
theorem validation_error_shapes (st : QueryDSL) :
    (QueryBuilder.matchQ st "" (Value.str "x") none =
      .err (.validation "Field name is required and must be a string in match query" none) st) ∧
    ((JsError.validation "Field name is required and must be a string in match query"
      none).isValidation = true) ∧
    (QueryBuilder.size st (-1) =
      .err (.validation "size parameter must be a non-negative integer" (some "size")) st) ∧
    (QueryBuilder.sort st "rating" "up" =
      .err (.validation "Sort order must be \x22asc\x22 or \x22desc\x22" none) st) ∧
    (QueryBuilder.range st "price" [] =
      .err (.validation "Range query must have at least one condition" none) st) ∧
    (QueryBuilder.multiMatch st [] (Value.str "x") none =
      .err (.validation "multi_match fields must have at least 1 item(s)" none) st) ∧
    (QueryBuilder.multiMatch st ["title"] (Value.str "x") (some "bogus") =
      .err (.validation ("Invalid multi_match type \x22bogus\x22. Valid types are: " ++
        "best_fields, most_fields, cross_fields, phrase, phrase_prefix, bool_prefix") none) st) ∧
    (QueryBuilder.aggregate st "" (Value.obj []) =
      .err (.validation "Aggregation name must be a non-empty string" none) st) ∧
    (QueryBuilder.terms st "brand" [] =
      .err (.generic "terms query values must be a non-empty array") st) ∧
    ((JsError.generic "terms query values must be a non-empty array").isValidation = false) ∧
    (QueryBuilder.termsAgg st "byBrand" "brand" 0 =
      .err (.generic "Terms aggregation size must be a positive integer") st) :=
  ⟨rfl, rfl, rfl, rfl, rfl, rfl, rfl, rfl, rfl, rfl, rfl⟩

/-- C6: for every operation that validates its input, a throw leaves the
builder's document exactly what it was before the call — every validation
check runs before any write, so partial mutation on failure never occurs. -/
theorem throw_leaves_state_unchanged (st st' : QueryDSL) (e : JsError)
    (f nm ordS : String) (v agg : Value) (vs : List Value)
    (r : List (String × Value)) (q : ℚ) (flds : List String) (mt : Option String) :
    (QueryBuilder.matchQ st f v mt = .err e st' → st' = st) ∧
    (QueryBuilder.term st f v = .err e st' → st' = st) ∧
    (QueryBuilder.terms st f vs = .err e st' → st' = st) ∧
    (QueryBuilder.range st f r = .err e st' → st' = st) ∧
    (QueryBuilder.multiMatch st flds v mt = .err e st' → st' = st) ∧
    (QueryBuilder.sort st f ordS = .err e st' → st' = st) ∧
    (QueryBuilder.from' st q = .err e st' → st' = st) ∧
    (QueryBuilder.size st q = .err e st' → st' = st) ∧
    (QueryBuilder.aggregate st nm agg = .err e st' → st' = st) ∧
    (QueryBuilder.termsAgg st nm f q = .err e st' → st' = st) := by
  refine ⟨?_, ?_, ?_, ?_, ?_, ?_, ?_, ?_, ?_, ?_⟩
  · intro h
    unfold QueryBuilder.matchQ at h
    repeat' split at h
    all_goals first
      | (injection h with h1 h2; exact h2.symm)
      | exact OpResult.noConfusion h
  · intro h
    unfold QueryBuilder.term at h
    repeat' split at h
    all_goals first
      | (injection h with h1 h2; exact h2.symm)
      | exact OpResult.noConfusion h
  · intro h
    unfold QueryBuilder.terms at h
    repeat' split at h
    all_goals first
      | (injection h with h1 h2; exact h2.symm)
      | exact OpResult.noConfusion h
  · intro h
    unfold QueryBuilder.range at h
    repeat' split at h
    all_goals first
      | (injection h with h1 h2; exact h2.symm)
      | exact OpResult.noConfusion h
  · intro h
    unfold QueryBuilder.multiMatch at h
    repeat' split at h
    all_goals first
      | (injection h with h1 h2; exact h2.symm)
      | exact OpResult.noConfusion h
  · intro h
    unfold QueryBuilder.sort at h
    repeat' split at h
    all_goals first
      | (injection h with h1 h2; exact h2.symm)
      | exact OpResult.noConfusion h
  · intro h
    unfold QueryBuilder.from' at h
    repeat' split at h
    all_goals first
      | (injection h with h1 h2; exact h2.symm)
      | exact OpResult.noConfusion h
  · intro h
    unfold QueryBuilder.size at h
    repeat' split at h
    all_goals first
      | (injection h with h1 h2; exact h2.symm)
      | exact OpResult.noConfusion h
  · intro h
    unfold QueryBuilder.aggregate at h
    repeat' split at h
    all_goals first
      | (injection h with h1 h2; exact h2.symm)
      | exact OpResult.noConfusion h
  · intro h
    unfold QueryBuilder.termsAgg QueryBuilder.aggregate at h
    repeat' split at h
    all_goals first
      | (injection h with h1 h2; exact h2.symm)
      | exact OpResult.noConfusion h

/-- Witness for C6: `match` with an empty field name throws and the state is
unchanged. -/
theorem throw_leaves_state_unchanged_witness :
    (QueryBuilder.matchQ QueryBuilder.initialState "" Value.null none =
      .err (.validation "Field name is required and must be a string in match query" none)
        QueryBuilder.initialState) ∧
    QueryBuilder.initialState = QueryBuilder.initialState :=
  ⟨rfl,
    (throw_leaves_state_unchanged QueryBuilder.initialState QueryBuilder.initialState
      (.validation "Field name is required and must be a string in match query" none)
      "" "n" "asc" Value.null (Value.obj []) [] [] 0 [] none).1 rfl⟩
